import Mathlib

/-!
Verification of the core state and command logic of the Game-Console
repository (`pygame_console`).

The embedding models text as `List Char` because the Python code works on
strings by character index (slicing, `len`, `str.replace`, `str.split`);
every definition is translated from `src/pygame_console/__init__.py`
(line numbers cited in the doc comments).  Rendering (pygame surfaces,
fonts, blitting) carries no program state relevant to the claims and is
not modelled; module import (`importlib`) and command handlers are
modelled as oracle parameters, since their behaviour lives outside the
repository.
-/

namespace PgConsole

/-- Text is a list of characters: Python strings are indexed by character. -/
abbrev Str := List Char

/-- Decimal digit character, used to model Python `str(int)`. -/
def digitChar (n : Nat) : Char := "0123456789".data.getD n '0'

/-- Fuel-indexed decimal rendering of a natural number (the fuel `n+1`
always suffices because `n / 10 < n` for `n ≥ 10`). -/
def natStrAux : Nat → Nat → Str
  | 0, _ => []
  | fuel+1, n => if n < 10 then [digitChar n] else natStrAux fuel (n / 10) ++ [digitChar (n % 10)]

/-- Python `str(n)` for a natural number. -/
def natStr (n : Nat) : Str := natStrAux (n+1) n

/-- Python `str(i)` for an integer. -/
def intStr : Int → Str
  | .ofNat n => natStr n
  | .negSucc n => '-' :: natStr (n+1)

/-- Python `s.replace(pat, rep)` (leftmost, non-overlapping, global), with
fuel equal to the length of the text; one step always consumes at least one
character when `pat` is non-empty, so the fuel suffices. -/
def pyReplaceAux (pat rep : Str) : Nat → Str → Str
  | _, [] => []
  | 0, s => s
  | fuel+1, c :: cs =>
    if pat.isPrefixOf (c :: cs) ∧ pat ≠ [] then
      rep ++ pyReplaceAux pat rep fuel ((c :: cs).drop pat.length)
    else c :: pyReplaceAux pat rep fuel cs

/-- Python `s.replace(pat, rep)` for a non-empty pattern. -/
def pyReplace (pat rep s : Str) : Str := pyReplaceAux pat rep s.length s

/-- Python `s.split('\n')`: split on every newline, keeping empty pieces. -/
def splitOnNl : Str → List Str
  | [] => [[]]
  | c :: rest =>
    match splitOnNl rest with
    | [] => [[]]
    | h :: t => if c = '\n' then [] :: h :: t else (c :: h) :: t

/-- Python `s.strip()`: drop leading and trailing whitespace. -/
def stripChars (s : Str) : Str :=
  ((s.dropWhile Char.isWhitespace).reverse.dropWhile Char.isWhitespace).reverse

/-- Python `s.split()` (no separator): split on whitespace runs, no empty
pieces.  `splitWsRaw` splits at every whitespace character keeping empties,
and `pySplit` filters the empties out, which is what `str.split()` does. -/
def splitWsRaw : Str → List Str
  | [] => [[]]
  | c :: rest =>
    match splitWsRaw rest with
    | [] => [[]]
    | h :: t => if c.isWhitespace then [] :: h :: t else (c :: h) :: t

/-- Python `s.split()` with no argument. -/
def pySplit (s : Str) : List Str := (splitWsRaw s).filter (· ≠ [])

/-- The slicing comprehension of `TextOutput.write`
(`[text_line[i:i+dc] for i in range(0, len(text_line), dc)]`,
`__init__.py` line 833): chunks of at most `dc` characters.
`range(0, len, 0)` raises `ValueError` in Python; with `dc = 0` this
model returns `[]` (division by zero is zero), a case no claim exercises. -/
def chunksOf (dc : Nat) (l : Str) : List Str :=
  (List.range ((l.length + dc - 1) / dc)).map (fun j => (l.drop (j * dc)).take dc)

/-- Python `text.replace('\t', tab_spaces * ' ')` (`__init__.py` line 821). -/
def replaceTabs (n : Nat) : Str → Str
  | [] => []
  | c :: rest => (if c = '\t' then List.replicate n ' ' else [c]) ++ replaceTabs n rest

/-!  ## TextOutput (`__init__.py` lines 602-859)

The buffer-relevant configuration of a `TextOutput`, from the `config`
dictionary merged with defaults in `TextOutput.__init__` (lines 628-651).
A colour is abstracted to a numeric tag.  `display_columns` is modelled as
the effective column count: `write` (line 830) first lowers the configured
value to what fits the surface width, a pure function of the font, constant
across calls; no claim depends on the particular value. -/
structure TOConfig where
  buffer_size : Nat
  display_lines : Nat
  display_columns : Nat
  tab_spaces : Nat
  font_color : Nat
deriving DecidableEq

/-- One record of the output buffer: a text chunk and its colour
(`self.buffer.append((text_line_part, color))`, line 838). -/
abbrev Rec := Str × Nat

/-- One append with immediate eviction, `__init__.py` lines 838-844: append
the record; if the buffer is over `buffer_size`, the loop
`for i in range(1, len(buffer)): buffer[i-1] = buffer[i]` followed by
`del buffer[len(buffer)-1]` shifts every record one slot left and removes
the duplicated tail, i.e. drops the head (oldest) record. -/
def bufferAppend (buffer_size : Nat) (buffer : List Rec) (r : Rec) : List Rec :=
  let buffer := buffer ++ [r]
  if buffer.length > buffer_size then buffer.drop 1 else buffer

/-- The records one `TextOutput.write(text, color)` call emits, lines
809-838: default the colour (`if not color: color = self.font_color`),
substitute tabs, split on newlines, skip empty lines
(`if text_line:`), and wrap each line into chunks of `display_columns`
characters.  (The `text.rstrip()` on line 818 discards its result and is
a no-op.) -/
def recordsOf (cfg : TOConfig) (text : Str) (color : Option Nat) : List Rec :=
  let color := color.getD cfg.font_color
  let text := replaceTabs cfg.tab_spaces text
  ((splitOnNl text).filter (fun l => l ≠ [])).flatMap
    (fun line => (chunksOf cfg.display_columns line).map (fun part => (part, color)))

/-- The mutable state of a `TextOutput`: the record buffer and the view
offset (`self.buffer = []`, `self.buffer_offset = 0`, lines 659-661). -/
structure TOState where
  buffer : List Rec
  buffer_offset : Nat
deriving DecidableEq

/-- `TextOutput.write` (lines 809-844): append every emitted record in
order, evicting after each single append.  `buffer_offset` is not touched. -/
def TextOutput.write (cfg : TOConfig) (s : TOState) (text : Str) (color : Option Nat) : TOState :=
  { s with buffer := (recordsOf cfg text color).foldl (bufferAppend cfg.buffer_size) s.buffer }

/-- The operations on the output buffer named by the claims: page
navigation and line (mouse-wheel) navigation from `TextOutput.update`
(lines 776-807), and appending via `TextOutput.write`. -/
inductive TOOp where
  | pageUp
  | pageDown
  | lineUp
  | lineDown
  | write (text : Str) (color : Option Nat)
deriving DecidableEq

/-- One step of `TextOutput.update`/`write`.  Python's `max(0, a - b)` on
non-negative ints is `Nat` truncated subtraction, used verbatim here:
PAGEUP (line 786) `max(0, off - display_lines)`;
PAGEDOWN (line 790) `min(max(0, len - display_lines), off + display_lines)`;
wheel up (line 801) `max(0, off - 1)`;
wheel down (line 806) `min(max(0, len - 1), off + 1)`. -/
def TextOutput.step (cfg : TOConfig) (s : TOState) : TOOp → TOState
  | .pageUp => { s with buffer_offset := s.buffer_offset - cfg.display_lines }
  | .pageDown =>
      { s with
          buffer_offset := min (s.buffer.length - cfg.display_lines)
            (s.buffer_offset + cfg.display_lines) }
  | .lineUp => { s with buffer_offset := s.buffer_offset - 1 }
  | .lineDown => { s with buffer_offset := min (s.buffer.length - 1) (s.buffer_offset + 1) }
  | .write t c => TextOutput.write cfg s t c

/-!  ## TextInput (`__init__.py` lines 861-1256) -/

/-- The buffer-relevant configuration of a `TextInput`, from the defaults
merged in `TextInput.__init__` (lines 898-917): history size, input length
cap and initial text. -/
structure TIConfig where
  buffer_size : Nat
  max_input_text : Nat
  text : Str
deriving DecidableEq

/-- The mutable editing state of a `TextInput`: the line being edited, the
cursor, the history buffer with its offset, and the armed key-repeat
counters (modelled as the list of armed keys; their timing is driven by a
pygame clock and is outside the claims). -/
structure TIState where
  text : Str
  cursor_position : Nat
  buffer : List Str
  buffer_offset : Nat
  keyrepeat_counters : List Nat
deriving DecidableEq

/-- Fresh `TextInput` state from `TextInput.__init__` (lines 920-1013):
`text` from the config, cursor at the end of it, empty history. -/
def TextInput.new (cfg : TIConfig) : TIState :=
  { text := cfg.text
    cursor_position := cfg.text.length
    buffer := []
    buffer_offset := 0
    keyrepeat_counters := [] }

/-- The `TEXTINPUT` event branch (lines 1150-1165): insert the typed text
at the cursor if the length cap is not reached, and advance the cursor. -/
def TextInput.textInput (cfg : TIConfig) (s : TIState) (typed : Str) : TIState :=
  if s.text.length < cfg.max_input_text then
    { s with
        text := s.text.take s.cursor_position ++ typed ++ s.text.drop s.cursor_position
        cursor_position := s.cursor_position + typed.length }
  else s

/-- The `K_RETURN` branch (lines 1083-1098) followed by the `clear_text`
call `Console.update` makes after a submission (lines 1469-1478, 1249-1256):
a non-empty line is appended to the history, `buffer_offset` is set to
`len(buffer)`, the history is FIFO-evicted past `buffer_size` (the same
shift-and-delete loop as in `TextOutput.write`, equal to dropping the
head) with `buffer_offset` then re-pointed at `len(buffer) - 1`; finally
the edit line and cursor are cleared. -/
def TextInput.keyReturn (cfg : TIConfig) (s : TIState) : TIState :=
  let s :=
    if s.text ≠ [] then
      let buffer := s.buffer ++ [s.text]
      if buffer.length > cfg.buffer_size then
        { s with buffer := buffer.drop 1, buffer_offset := (buffer.drop 1).length - 1 }
      else
        { s with buffer := buffer, buffer_offset := buffer.length }
    else s
  { s with text := [], cursor_position := 0 }

/-- The `K_UP` history branch (lines 1120-1134): only acts on a non-empty
history; decrements `buffer_offset` when it is at least 1; the line-1125
"fix" bumps the offset when it equals `len(buffer)` (dead in reachable
states); then recalls `buffer[buffer_offset]` with the cursor at its end.
Python would raise `IndexError` on an out-of-range offset; `List.getD`
returns `[]` there, a case no reachable state hits. -/
def TextInput.keyUp (s : TIState) : TIState :=
  if 0 < s.buffer.length then
    let off := if s.buffer_offset ≥ 1 then s.buffer_offset - 1 else s.buffer_offset
    let off := if s.buffer.length = off then off + 1 else off
    let text := s.buffer.getD off []
    { s with buffer_offset := off, text := text, cursor_position := text.length }
  else s

/-- The `K_DOWN` history branch (lines 1137-1148): only acts when
`buffer_offset < len(buffer) - 1` (on Python ints; as naturals
`buffer_offset + 1 < len`), then advances the offset and recalls that
entry.  At the newest entry it is a no-op. -/
def TextInput.keyDown (s : TIState) : TIState :=
  if s.buffer_offset + 1 < s.buffer.length then
    let off := s.buffer_offset + 1
    let text := s.buffer.getD off []
    { s with buffer_offset := off, text := text, cursor_position := text.length }
  else s

/-!  ## CommandLineProcessor (`__init__.py` lines 96-315)

Module resolution (`importlib` in `str_to_package_module`) and command
handlers live outside the repository, so they are oracle parameters: a
handler takes the raw parameter string and either returns its captured
stdout or raises with a message. -/

/-- A registered command function: Python `fnc(game_ctx=…, params=…)`,
whose return value `do_py_script` discards; it can print (captured output)
or raise (message). -/
abbrev Handler := Str → Except Str Str

/-- The processor state relevant to dispatch: the command package path,
the `_cmd_scripts` registry (dict lookup), and the module-resolution
oracle: `resolvable name` is the function registered under `name` after a
successful import-and-register of module `name`, or `none` when the module
cannot be resolved (`str_to_package_module` raises). -/
structure Cli where
  cmd_pckg_path : Str
  cmd_scripts : Str → Option Handler
  resolvable : Str → Option Handler

namespace CommandLineProcessor

/-- `register_command` (lines 123-142): on resolution failure re-raises
`ValueError` with the quoted absolute module path message (line 133);
otherwise the module registers itself and the registered function is
returned. -/
def register_command (cli : Cli) (name : Str) : Except Str Handler :=
  match cli.resolvable name with
  | none =>
      .error ("Error during loading of py script command module \"".data
        ++ cli.cmd_pckg_path ++ ".".data ++ name ++ "\".".data)
  | some f => .ok f

/-- `get_command` (lines 117-121): registry lookup, falling back to
`register_command`. -/
def get_command (cli : Cli) (name : Str) : Except Str Handler :=
  match cli.cmd_scripts name with
  | some f => .ok f
  | none => register_command cli name

/-- `do_py_script` (lines 208-226): resolves `params.split()[0]`, calls
the handler, and writes the captured stdout on success, or writes `str(E)`
and returns `-1` when anything raises (the `except Exception` arm; an
empty `params` raises `IndexError` with this message).  The result is the
pair (writes to the console output, Python return value, `none` = `None`). -/
def do_py_script (cli : Cli) (params : Str) : List Str × Option Int :=
  match (pySplit params).head? with
  | none => (["list index out of range".data], some (-1))
  | some name =>
    match get_command cli name with
    | .error msg => ([msg], some (-1))
    | .ok f =>
      match f params with
      | .error emsg => ([emsg], some (-1))
      | .ok printed => ([printed], none)

/-- `default` (lines 155-163): the fallback for an unknown verb calls
`self.do_py_script(line)` *without* `return`, so the method's Python value
is `None` and the `-1` failure code from `do_py_script` is discarded; its
output writes happen as a side effect. -/
def default (cli : Cli) (line : Str) : List Str × Option Int :=
  ((do_py_script cli line).1, none)

/-- The parameter substitution of `do_script` (lines 291-295): strip the
script line, then for each `(key, value)` pair in dictionary iteration
order replace every occurrence of `$key` by `value`. -/
def substitute (params_dict : List (Str × Str)) (script_line : Str) : Str :=
  params_dict.foldl (fun cmd_line kv => pyReplace ('$' :: kv.1) kv.2 cmd_line)
    (stripChars script_line)

/-- The observable outcome of one `do_script` call: the command lines given
to `self.onecmd` in order, the writes to the console output, and the Python
return value (`none` = `None`). -/
structure ScriptRun where
  dispatched : List Str
  written : List Str
  result : Option Int
deriving DecidableEq

/-- The `while script_line:` loop of `do_script` (lines 284-315) over the
lines of an existing script file, with `self.onecmd` as the `dispatch`
oracle (`none` models `None`).  A truthy result (`if error:`, line 300)
triggers the bare `raise` — a `RuntimeError` caught by the bare `except`
(line 310), which writes `'Error (' + str(error) + ') on line ' +
str(script_line_no) + '. Command: ' + str(script_line.strip())` and
returns `-1`.  `script_line_no` is set to `1` on line 285 and never
updated anywhere in the loop, so the recursive call passes it through
unchanged, exactly as the source does. -/
def scriptLines (dispatch : Str → Option Int) (params_dict : List (Str × Str))
    (script_line_no : Nat) : List Str → ScriptRun
  | [] => ⟨[], [], none⟩
  | script_line :: rest =>
    let cmd_line := substitute params_dict script_line
    match dispatch cmd_line with
    | some v =>
      if v ≠ 0 then
        ⟨[cmd_line],
         ["Error (".data ++ intStr v ++ ") on line ".data ++ natStr script_line_no
           ++ ". Command: ".data ++ stripChars script_line],
         some (-1)⟩
      else
        let r := scriptLines dispatch params_dict script_line_no rest
        ⟨cmd_line :: r.dispatched, r.written, r.result⟩
    | none =>
      let r := scriptLines dispatch params_dict script_line_no rest
      ⟨cmd_line :: r.dispatched, r.written, r.result⟩

/-- `do_script` (lines 278-315) on an existing script file, after argument
parsing: `script_path` is `str(Path(self.script_path) / script_name)`.
With `verbose_mode` the start trace `'>S>Script ' + script_path +
' started.'` (line 282) concatenates `str` with a `pathlib.Path` and
raises `TypeError` before the first `readline`; the bare `except` at line
310 then sees `script_line` still `None` and takes the
`'Error loading script file …'` branch (line 312), returning `-1`.
Without it, the line loop runs and a completed loop returns `None`
(the verbose success trace on line 304 is unreachable). -/
def do_script (script_path : Str) (lines : List Str) (params_dict : List (Str × Str))
    (verbose_mode : Bool) (dispatch : Str → Option Int) : ScriptRun :=
  if verbose_mode then
    ⟨[], ["Error loading script file \"".data ++ script_path ++ "\".".data], some (-1)⟩
  else
    scriptLines dispatch params_dict 1 lines

end CommandLineProcessor

/-!  ## Console animation (`__init__.py` lines 1411-1423, 1489-1557)

Times and the percentage are rationals standing for the real-valued
arithmetic (the Python floats carry no rounding at the claims' inputs). -/

/-- The animation state kept on the `Console`: `enabled` (line 1303/1649),
`anim_perc`, `anim_last_time` and `anim_velocity` (lines 1419-1423). -/
structure AnimState where
  enabled : Bool
  anim_perc : ℚ
  anim_last_time : ℚ
  anim_velocity : ℚ

/-- The animation update in `Console.show` (lines 1529-1535): when showing
and not fully shown, or hiding and not fully hidden, advance
`anim_perc` by `±(current_time - anim_last_time) * anim_velocity` and
remember the time; then clamp to `[0, 100]` unconditionally. -/
def Console.animTick (s : AnimState) (current_time : ℚ) : AnimState :=
  let s :=
    if (s.enabled = true ∧ s.anim_perc < 100) ∨ (s.enabled = false ∧ s.anim_perc > 0) then
      { s with
          anim_perc := s.anim_perc +
            (if s.enabled then (1 : ℚ) else -1) * (current_time - s.anim_last_time) *
              s.anim_velocity
          anim_last_time := current_time }
    else s
  let p := if s.anim_perc > 100 then (100 : ℚ) else s.anim_perc
  let p := if p < 0 then (0 : ℚ) else p
  { s with anim_perc := p }

/-!  ## Console (`__init__.py` lines 1258-1658) -/

/-- The sections of the configuration dictionary the claims touch:
`config.get('input')` and `config.get('output')` (`none` models a missing
or falsy section, which leaves the component `None`). -/
structure ConsoleCfg where
  cfgInput : Option TIConfig
  cfgOutput : Option TOConfig

/-- Fresh `TextOutput` buffer state from `TextOutput.__init__`
(lines 656-661). -/
def TextOutput.new : TOState := ⟨[], 0⟩

/-- The component construction of `Console.init` (lines 1358-1379): for
input and output alike, the `try` reads the old component's `buffer` and
`buffer_offset` (raising `AttributeError` into the `except` arm when the
component does not exist yet), builds the new component from the new
config (or `None` without that section — in which case the restoring
assignment raises into the same `except`, which rebuilds from the config
and ends at `None` again), and restores both backed-up fields into it. -/
def Console.initComponents (old_in : Option TIState) (old_out : Option TOState)
    (cfg : ConsoleCfg) : Option TIState × Option TOState :=
  let ci := match old_in, cfg.cfgInput with
    | some oi, some c =>
        some { TextInput.new c with buffer := oi.buffer, buffer_offset := oi.buffer_offset }
    | some _, none => none
    | none, some c => some (TextInput.new c)
    | none, none => none
  let co := match old_out, cfg.cfgOutput with
    | some oo, some _ =>
        some { TextOutput.new with buffer := oo.buffer, buffer_offset := oo.buffer_offset }
    | some _, none => none
    | none, some _ => some TextOutput.new
    | none, none => none
  (ci, co)

/-- The console state the claims touch: the two optional components and the
enabled flag. -/
structure ConsoleState where
  console_input : Option TIState
  console_output : Option TOState
  enabled : Bool

/-- `Console.__init__` (lines 1271-1303): run `init` on a fresh object,
write the welcome message when an output exists, and start disabled. -/
def Console.new (cfg : ConsoleCfg) (welcome_msg : Str) (welcome_color : Option Nat) :
    ConsoleState :=
  let comps := Console.initComponents none none cfg
  let co := match comps.2, cfg.cfgOutput with
    | some o, some ocfg => some (TextOutput.write ocfg o welcome_msg welcome_color)
    | x, _ => x
  { console_input := comps.1, console_output := co, enabled := false }

/-- `Console.toggle` (lines 1641-1658): flip or force `enabled`, then clear
the key-repeat counters via `self.console_input.keyrepeat_counters.clear()`
(line 1655) — an `AttributeError` on `None` when the console has no input
component, raised after `enabled` was already flipped and instead of the
`return self.enabled`.  (The animation timestamp reset on line 1652 touches
no state the claims observe.) -/
def Console.toggle (s : ConsoleState) (enable : Option Bool) : ConsoleState × Except Str Bool :=
  let enabled := match enable with
    | none => !s.enabled
    | some b => b
  match s.console_input with
  | none => ({ s with enabled := enabled }, .error "AttributeError".data)
  | some ti =>
      ({ s with enabled := enabled, console_input := some { ti with keyrepeat_counters := [] } },
        .ok enabled)

/-!  ## Shared lemmas about the output buffer -/

/-- One `bufferAppend` never shrinks the buffer. -/
theorem bufferAppend_length_le (cap : Nat) (b : List Rec) (r : Rec) :
    b.length ≤ (bufferAppend cap b r).length := by
  simp only [bufferAppend]
  split <;> simp

/-- Folding `bufferAppend` never shrinks the buffer. -/
theorem foldl_bufferAppend_length_le (cap : Nat) :
    ∀ (rs b : List Rec), b.length ≤ (rs.foldl (bufferAppend cap) b).length := by
  intro rs
  induction rs with
  | nil => intro b; simp
  | cons r rs ih =>
      intro b
      exact le_trans (bufferAppend_length_le cap b r) (by simpa using ih (bufferAppend cap b r))

/-- `TextOutput.write` never shrinks the buffer. -/
theorem write_buffer_length_le (cfg : TOConfig) (s : TOState) (t : Str) (c : Option Nat) :
    s.buffer.length ≤ (TextOutput.write cfg s t c).buffer.length :=
  foldl_bufferAppend_length_le cfg.buffer_size (recordsOf cfg t c) s.buffer

/-- Folding `bufferAppend` over appended records keeps exactly the newest
`cap` records of the accumulated history, provided the starting buffer is
within capacity. -/
theorem foldl_bufferAppend_eq_drop (cap : Nat) :
    ∀ (rs b : List Rec), b.length ≤ cap →
      rs.foldl (bufferAppend cap) b = (b ++ rs).drop ((b ++ rs).length - cap) := by
  intro rs
  induction rs with
  | nil =>
      intro b hb
      simp [Nat.sub_eq_zero_of_le hb]
  | cons r rs ih =>
      intro b hb
      rw [List.foldl_cons]
      by_cases hlen : b.length + 1 ≤ cap
      · have hstep : bufferAppend cap b r = b ++ [r] := by
          simp only [bufferAppend]
          rw [if_neg (by simp; omega)]
        rw [hstep, ih (b ++ [r]) (by simp; omega)]
        simp
      · have hcap : b.length = cap := by omega
        have hstep : bufferAppend cap b r = (b ++ [r]).drop 1 := by
          simp only [bufferAppend]
          rw [if_pos (by simp; omega)]
        rw [hstep, ih ((b ++ [r]).drop 1) (by simp; omega)]
        rw [← List.drop_append_of_le_length (by simp)]
        rw [List.drop_drop]
        have h1 : (b ++ [r]) ++ rs = b ++ r :: rs := by simp
        rw [h1]
        congr 1
        simp [hcap]
        omega

/-- The buffer a sequence of `TextOutput.write` calls leaves behind is the
fold of `bufferAppend` over all the records those calls emit, in order. -/
theorem foldl_write_buffer (cfg : TOConfig) :
    ∀ (ws : List (Str × Option Nat)) (s : TOState),
      (ws.foldl (fun s w => TextOutput.write cfg s w.1 w.2) s).buffer
        = (ws.flatMap fun w => recordsOf cfg w.1 w.2).foldl (bufferAppend cfg.buffer_size)
            s.buffer := by
  intro ws
  induction ws with
  | nil => intro s; simp
  | cons w ws ih =>
      intro s
      rw [List.foldl_cons, List.flatMap_cons, List.foldl_append]
      exact ih (TextOutput.write cfg s w.1 w.2)

/-- C1.  ScrollBuffer FIFO eviction: after any sequence of
`TextOutput.write` calls on a fresh output whose total number of emitted
records exceeds `buffer_size`, the buffer holds exactly `buffer_size`
records, and they are exactly the most recent `buffer_size` records
appended, in order (the oldest record is evicted first on every
overflow). -/
theorem C1_scrollbuffer_fifo_eviction (cfg : TOConfig) (ws : List (Str × Option Nat))
    (h : cfg.buffer_size < (ws.flatMap fun w => recordsOf cfg w.1 w.2).length) :
    (ws.foldl (fun s w => TextOutput.write cfg s w.1 w.2) ⟨[], 0⟩).buffer
        = (ws.flatMap fun w => recordsOf cfg w.1 w.2).drop
            ((ws.flatMap fun w => recordsOf cfg w.1 w.2).length - cfg.buffer_size)
      ∧ (ws.foldl (fun s w => TextOutput.write cfg s w.1 w.2) ⟨[], 0⟩).buffer.length
          = cfg.buffer_size := by
  have hb := foldl_write_buffer cfg ws ⟨[], 0⟩
  have hd := foldl_bufferAppend_eq_drop cfg.buffer_size
    (ws.flatMap fun w => recordsOf cfg w.1 w.2) [] (by simp)
  simp only [List.nil_append] at hd
  refine ⟨by rw [hb, hd], ?_⟩
  rw [hb, hd, List.length_drop]
  omega

/-- Witness for C1 at a concrete input: `write("a\nb\nc")` on a fresh
buffer of capacity 2 emits three records and retains the last two, in
order. -/
theorem C1_scrollbuffer_fifo_eviction_witness :
    (⟨2, 2, 10, 4, 7⟩ : TOConfig).buffer_size
        < ([(("a\nb\nc".data : Str), (none : Option Nat))].flatMap
            fun w => recordsOf ⟨2, 2, 10, 4, 7⟩ w.1 w.2).length
      ∧ (([(("a\nb\nc".data : Str), (none : Option Nat))].foldl
            (fun s w => TextOutput.write ⟨2, 2, 10, 4, 7⟩ s w.1 w.2) ⟨[], 0⟩).buffer
          = ([(("a\nb\nc".data : Str), (none : Option Nat))].flatMap
              fun w => recordsOf ⟨2, 2, 10, 4, 7⟩ w.1 w.2).drop
              (([(("a\nb\nc".data : Str), (none : Option Nat))].flatMap
                  fun w => recordsOf ⟨2, 2, 10, 4, 7⟩ w.1 w.2).length
                - (⟨2, 2, 10, 4, 7⟩ : TOConfig).buffer_size)
        ∧ ([(("a\nb\nc".data : Str), (none : Option Nat))].foldl
            (fun s w => TextOutput.write ⟨2, 2, 10, 4, 7⟩ s w.1 w.2) ⟨[], 0⟩).buffer.length
          = (⟨2, 2, 10, 4, 7⟩ : TOConfig).buffer_size) :=
  ⟨by decide, C1_scrollbuffer_fifo_eviction ⟨2, 2, 10, 4, 7⟩ _ (by decide)⟩

/-- Every single buffer operation preserves the bound
`buffer_offset ≤ len(buffer) - 1` (truncated subtraction). -/
theorem step_preserves_offset_bound (cfg : TOConfig) (s : TOState) (op : TOOp)
    (h : s.buffer_offset ≤ s.buffer.length - 1) :
    (TextOutput.step cfg s op).buffer_offset ≤ (TextOutput.step cfg s op).buffer.length - 1 := by
  cases op with
  | pageUp => simp only [TextOutput.step]; omega
  | pageDown => simp only [TextOutput.step]; omega
  | lineUp => simp only [TextOutput.step]; omega
  | lineDown => simp only [TextOutput.step]; omega
  | write t c =>
      have hlen := write_buffer_length_le cfg s t c
      simp only [TextOutput.step, TextOutput.write] at *
      omega

/-- The bound of `step_preserves_offset_bound` is preserved along any
operation sequence. -/
theorem foldl_step_preserves_offset_bound (cfg : TOConfig) :
    ∀ (ops : List TOOp) (s : TOState), s.buffer_offset ≤ s.buffer.length - 1 →
      (ops.foldl (TextOutput.step cfg) s).buffer_offset
        ≤ (ops.foldl (TextOutput.step cfg) s).buffer.length - 1 := by
  intro ops
  induction ops with
  | nil => intro s h; simpa using h
  | cons op ops ih =>
      intro s h
      rw [List.foldl_cons]
      exact ih _ (step_preserves_offset_bound cfg s op h)

/-- C2 counterexample.  The claimed invariant
`buffer_offset ∈ [0, max(0, len - display_lines)]` fails on the code:
with `display_lines = 2`, appending the three records "a", "b", "c" and
then navigating line-down (mouse-wheel down) twice leaves
`buffer_offset = 2`, above the claimed bound `max(0, 3 - 2) = 1`, because
the wheel-down handler clamps to `len - 1`, not `len - display_lines`. -/
theorem C2_view_offset_counterexample :
    ¬ (([TOOp.write "a\nb\nc".data none, TOOp.lineDown, TOOp.lineDown].foldl
          (TextOutput.step ⟨100, 2, 10, 4, 0⟩) ⟨[], 0⟩).buffer_offset
        ≤ max 0
            (([TOOp.write "a\nb\nc".data none, TOOp.lineDown, TOOp.lineDown].foldl
                (TextOutput.step ⟨100, 2, 10, 4, 0⟩) ⟨[], 0⟩).buffer.length
              - (⟨100, 2, 10, 4, 0⟩ : TOConfig).display_lines)) := by decide

/-- C2 amended.  View-offset invariant with the bound the code actually
maintains: after every sequence of page-up, page-down, line-up, line-down
and append (`write`) operations starting from a fresh output buffer, the
view offset lies in `[0, max(0, len(buffer) - 1)]` (line-down clamps to
`len - 1`; every other operation stays below the tighter page bound). -/
theorem C2_view_offset_invariant_amended (cfg : TOConfig) (ops : List TOOp) :
    (ops.foldl (TextOutput.step cfg) ⟨[], 0⟩).buffer_offset
      ≤ max 0 ((ops.foldl (TextOutput.step cfg) ⟨[], 0⟩).buffer.length - 1) := by
  have h := foldl_step_preserves_offset_bound cfg ops ⟨[], 0⟩ (by simp)
  omega

/-!  ## Script interpreter and dispatcher claims -/

/-- C3.  Fail-fast holds, the failure report carries the original
pre-substitution line text and `do_script` returns `-1` — but the reported
line number is always 1, because `script_line_no` is set once (line 285)
and never incremented.  At this concrete failing input the first failing
line is line 2 (`py_script bogus`, dispatched as such after line 1 ran as
`move 10 20`), no line after it is dispatched, yet the single report reads
`Error (-1) on line 1. Command: py_script bogus`. -/
theorem C3_script_failfast_line_number_eval :
    CommandLineProcessor.do_script "scripts/t.scr".data
        ["move $x $y".data, "py_script bogus".data]
        [("x".data, "10".data), ("y".data, "20".data)] false
        (fun cmd => if cmd = "py_script bogus".data then some (-1) else none)
      = ⟨["move 10 20".data, "py_script bogus".data],
         ["Error (-1) on line 1. Command: py_script bogus".data],
         some (-1)⟩ := by decide

/-- C4.  Dispatching `"unknowncmd arg1"` with an empty registry and an
unresolvable module writes exactly one message, containing the resolution
error, and no exception escapes — but the dispatcher's result is `None`,
not a failure code: `do_py_script` does return `-1`, and `default`
(line 163) discards it because it lacks a `return`. -/
theorem C4_unknown_command_dispatch_eval :
    CommandLineProcessor.default ⟨"console_commands".data, fun _ => none, fun _ => none⟩
        "unknowncmd arg1".data
      = (["Error during loading of py script command module \x22console_commands.unknowncmd\x22.".data],
         none)
    ∧ (CommandLineProcessor.do_py_script
          ⟨"console_commands".data, fun _ => none, fun _ => none⟩ "unknowncmd arg1".data).2
        = some (-1) := by
  constructor <;> rfl

/-- When every line of a script dispatches successfully, the loop
dispatches every substituted line in order, writes nothing and returns
`None`. -/
theorem scriptLines_all_ok (dispatch : Str → Option Int) (params_dict : List (Str × Str))
    (n : Nat) :
    ∀ lines : List Str,
      (∀ l ∈ lines, dispatch (CommandLineProcessor.substitute params_dict l) = none
          ∨ dispatch (CommandLineProcessor.substitute params_dict l) = some 0) →
      CommandLineProcessor.scriptLines dispatch params_dict n lines
        = ⟨lines.map (CommandLineProcessor.substitute params_dict), [], none⟩ := by
  intro lines
  induction lines with
  | nil => intro _; rfl
  | cons l rest ih =>
      intro h
      have hrest := ih (fun x hx => h x (List.mem_cons_of_mem l hx))
      rcases h l (List.mem_cons_self l rest) with hl | hl <;>
        simp [CommandLineProcessor.scriptLines, hl, hrest]

/-- C6.  Script parameter substitution: each dispatched line is the
stripped script line with, for each key in dictionary iteration order,
every occurrence of `$key` replaced by that key's value (this is
`substitute`, translated from lines 291-295); and concretely
`"move $x $y"` with `x = 10, y = 20` is dispatched as `"move 10 20"`. -/
theorem C6_script_parameter_substitution :
    (∀ (path : Str) (lines : List Str) (params_dict : List (Str × Str))
        (dispatch : Str → Option Int),
      (∀ l ∈ lines, dispatch (CommandLineProcessor.substitute params_dict l) = none
          ∨ dispatch (CommandLineProcessor.substitute params_dict l) = some 0) →
      (CommandLineProcessor.do_script path lines params_dict false dispatch).dispatched
        = lines.map (CommandLineProcessor.substitute params_dict))
    ∧ CommandLineProcessor.substitute [("x".data, "10".data), ("y".data, "20".data)]
        "move $x $y".data = "move 10 20".data := by
  constructor
  · intro path lines params_dict dispatch h
    simp only [CommandLineProcessor.do_script,
      scriptLines_all_ok dispatch params_dict 1 lines h]
    rfl
  · decide

/-- Witness for C6 at a concrete input: the one-line script
`move $x $y` with `x = 10, y = 20` and an all-succeeding dispatcher
dispatches exactly the substituted line. -/
theorem C6_script_parameter_substitution_witness :
    (CommandLineProcessor.do_script "p".data ["move $x $y".data]
        [("x".data, "10".data), ("y".data, "20".data)] false (fun _ => none)).dispatched
      = ["move $x $y".data].map
          (CommandLineProcessor.substitute [("x".data, "10".data), ("y".data, "20".data)]) :=
  C6_script_parameter_substitution.1 "p".data ["move $x $y".data]
    [("x".data, "10".data), ("y".data, "20".data)] (fun _ => none)
    (fun _ _ => Or.inl rfl)

/-- C8.  Verbose tracing is broken: on an existing script whose only line
would dispatch successfully, the verbose run dispatches nothing and
returns `-1`, writing only `Error loading script file "…".` — the start
trace `'>S>Script ' + script_path + ' started.'` (line 282) raises
`TypeError` (`str` + `pathlib.Path`), the bare `except` sees
`script_line = None` and takes the load-error branch.  No start or
completion trace is ever written, and verbose mode does change the
script's result (the same run without `-v` succeeds). -/
theorem C8_verbose_script_tracing_eval :
    CommandLineProcessor.do_script "scripts/example1.scr".data ["move 10 20".data] [] true
        (fun _ => none)
      = ⟨[], ["Error loading script file \x22scripts/example1.scr\x22.".data], some (-1)⟩
    ∧ CommandLineProcessor.do_script "scripts/example1.scr".data ["move 10 20".data] [] false
        (fun _ => none)
      = ⟨["move 10 20".data], [], none⟩ := by
  constructor <;> rfl

/-!  ## History navigation (C5) -/

/-- C5 counterexample.  From an empty input with empty history, submitting
`"foo"` and then pressing history-up followed by history-down does NOT
leave the input line empty: history-down only moves when
`buffer_offset < len(buffer) - 1`, a no-op here, so the line still reads
`"foo"`, refuting the claimed round-trip. -/
theorem C5_history_roundtrip_counterexample :
    ¬ ((TextInput.keyDown (TextInput.keyUp (TextInput.keyReturn ⟨10, 1000, []⟩
          (TextInput.textInput ⟨10, 1000, []⟩ (TextInput.new ⟨10, 1000, []⟩) "foo".data)))).text
        = []) := by decide

/-- C5 amended.  Submitting `"foo"` then pressing history-up followed by
history-down leaves the input line containing `"foo"` (history-down at the
newest entry is a no-op rather than restoring the empty line); and when
the history holds exactly one entry (offset at most 1, as every reachable
state has), pressing history-up twice yields that one entry as the input
text both times — navigation past the oldest entry is a no-op, never an
error. -/
theorem C5_history_navigation_amended :
    (TextInput.keyDown (TextInput.keyUp (TextInput.keyReturn ⟨10, 1000, []⟩
        (TextInput.textInput ⟨10, 1000, []⟩ (TextInput.new ⟨10, 1000, []⟩) "foo".data)))).text
      = "foo".data
    ∧ ∀ (e : Str) (s : TIState), s.buffer = [e] → s.buffer_offset ≤ 1 →
        (TextInput.keyUp s).text = e ∧ (TextInput.keyUp (TextInput.keyUp s)).text = e := by
  constructor
  · decide
  · intro e s hb ho
    rcases s with ⟨t, c, b, o, k⟩
    simp only at hb ho
    subst hb
    interval_cases o <;>
      constructor <;> simp [TextInput.keyUp]

/-- Witness for C5 at a concrete input: from the state reached after
submitting `"foo"` (history `["foo"]`, offset 1, empty line), history-up
once and twice both show `"foo"`. -/
theorem C5_history_navigation_amended_witness :
    (TextInput.keyUp (⟨[], 0, ["foo".data], 1, []⟩ : TIState)).text = "foo".data
    ∧ (TextInput.keyUp (TextInput.keyUp (⟨[], 0, ["foo".data], 1, []⟩ : TIState))).text
        = "foo".data :=
  C5_history_navigation_amended.2 "foo".data ⟨[], 0, ["foo".data], 1, []⟩ rfl (by decide)

/-!  ## Animation (C7) -/

/-- C7.  Animator tick arithmetic and clamping: on a tick at `now`, when
enabled and `anim_perc < 100` the percentage becomes
`min 100 (anim_perc + (now - anim_last_time) * anim_velocity)`, and when
disabled and `anim_perc > 0` it becomes
`max 0 (anim_perc - (now - anim_last_time) * anim_velocity)` (under time
monotone and the in-range state every reachable state satisfies);
concretely from enabled, percentage 0, velocity 10 per ms and last tick 0,
a tick at 5 ms yields 50 and a further tick at 20 ms yields 100, not
150. -/
theorem C7_animator_tick_clamping :
    (∀ (s : AnimState) (now : ℚ), s.enabled = true → 0 ≤ s.anim_perc → s.anim_perc < 100 →
        s.anim_last_time ≤ now → 0 ≤ s.anim_velocity →
        (Console.animTick s now).anim_perc
          = min 100 (s.anim_perc + (now - s.anim_last_time) * s.anim_velocity))
    ∧ (∀ (s : AnimState) (now : ℚ), s.enabled = false → 0 < s.anim_perc → s.anim_perc ≤ 100 →
        s.anim_last_time ≤ now → 0 ≤ s.anim_velocity →
        (Console.animTick s now).anim_perc
          = max 0 (s.anim_perc - (now - s.anim_last_time) * s.anim_velocity))
    ∧ (Console.animTick ⟨true, 0, 0, 10⟩ 5).anim_perc = 50
    ∧ (Console.animTick (Console.animTick ⟨true, 0, 0, 10⟩ 5) 20).anim_perc = 100 := by
  refine ⟨?_, ?_, ?_, ?_⟩
  · intro s now h1 h2 h3 h4 h5
    have hnn : 0 ≤ (now - s.anim_last_time) * s.anim_velocity :=
      mul_nonneg (by linarith) h5
    simp only [Console.animTick, h1, if_true, one_mul]
    rw [if_pos (Or.inl ⟨trivial, h3⟩)]
    dsimp only
    split_ifs with hA hB hB
    · linarith
    · symm
      rw [min_eq_left]
      linarith
    · linarith
    · symm
      rw [min_eq_right]
      linarith
  · intro s now h1 h2 h3 h4 h5
    have hnn : 0 ≤ (now - s.anim_last_time) * s.anim_velocity :=
      mul_nonneg (by linarith) h5
    simp only [Console.animTick, h1, Bool.false_eq_true, if_false, neg_mul, one_mul]
    rw [if_pos (Or.inr ⟨trivial, h2⟩)]
    dsimp only
    rw [show s.anim_perc + -((now - s.anim_last_time) * s.anim_velocity)
          = s.anim_perc - (now - s.anim_last_time) * s.anim_velocity from by ring]
    split_ifs with hA hB hB
    · linarith
    · linarith
    · symm
      rw [max_eq_left]
      linarith
    · symm
      rw [max_eq_right]
      linarith
  · simp only [Console.animTick]
    norm_num
  · simp only [Console.animTick]
    norm_num

/-- Witness for C7 at a concrete input: the enabled-tick formula applied
at the state of the claim's concrete scenario. -/
theorem C7_animator_tick_clamping_witness :
    (Console.animTick ⟨true, 0, 0, 10⟩ 5).anim_perc = min 100 ((0 : ℚ) + (5 - 0) * 10) :=
  C7_animator_tick_clamping.1 ⟨true, 0, 0, 10⟩ 5 rfl le_rfl (by norm_num) (by norm_num)
    (by norm_num)

/-!  ## Console reconfiguration and toggle (C9, C10) -/

/-- C9.  Stateful reconfiguration: when both components exist and the new
configuration still carries input and output sections, `Console.init`
preserves the input history buffer and offset and the output buffer and
offset exactly (they are backed up before the components are rebuilt and
restored afterwards). -/
theorem C9_reconfiguration_preserves_buffers (oi : TIState) (oo : TOState) (cfg : ConsoleCfg)
    (ic : TIConfig) (oc : TOConfig)
    (hin : cfg.cfgInput = some ic) (hout : cfg.cfgOutput = some oc) :
    ((Console.initComponents (some oi) (some oo) cfg).1.map fun s => (s.buffer, s.buffer_offset))
        = some (oi.buffer, oi.buffer_offset)
      ∧ ((Console.initComponents (some oi) (some oo) cfg).2.map
            fun s => (s.buffer, s.buffer_offset))
          = some (oo.buffer, oo.buffer_offset) := by
  simp [Console.initComponents, hin, hout]

/-- Witness for C9 at a concrete input: a console with one history entry
and one output record keeps both, with their offsets, across a re-init. -/
theorem C9_reconfiguration_preserves_buffers_witness :
    ((Console.initComponents (some ⟨"x".data, 1, ["h".data], 1, []⟩)
          (some ⟨[(("w".data : Str), 3)], 2⟩) ⟨some ⟨10, 1000, []⟩, some ⟨100, 5, 80, 4, 0⟩⟩).1.map
        fun s => (s.buffer, s.buffer_offset))
        = some (["h".data], 1)
      ∧ ((Console.initComponents (some ⟨"x".data, 1, ["h".data], 1, []⟩)
            (some ⟨[(("w".data : Str), 3)], 2⟩)
            ⟨some ⟨10, 1000, []⟩, some ⟨100, 5, 80, 4, 0⟩⟩).2.map
          fun s => (s.buffer, s.buffer_offset))
          = some ([(("w".data : Str), 3)], 2) :=
  C9_reconfiguration_preserves_buffers ⟨"x".data, 1, ["h".data], 1, []⟩
    ⟨[(("w".data : Str), 3)], 2⟩ ⟨some ⟨10, 1000, []⟩, some ⟨100, 5, 80, 4, 0⟩⟩
    ⟨10, 1000, []⟩ ⟨100, 5, 80, 4, 0⟩ rfl rfl

/-- C10.  Toggle at the public interface: on a console constructed from a
configuration with no input section (`console_input` is `None`), `toggle()`
raises `AttributeError` when it clears the key-repeat counters instead of
returning the new enabled state; and whenever an input component exists,
`toggle()` completes normally and returns the new enabled state. -/
theorem C10_toggle_without_input_attribute_error :
    (∀ (cfg : ConsoleCfg) (w : Str) (wc : Option Nat) (enable : Option Bool),
        cfg.cfgInput = none →
        (Console.toggle (Console.new cfg w wc) enable).2 = .error "AttributeError".data)
    ∧ (∀ (s : ConsoleState) (ti : TIState) (enable : Option Bool),
        s.console_input = some ti →
        (Console.toggle s enable).2 = .ok ((Console.toggle s enable).1.enabled)) := by
  constructor
  · intro cfg w wc enable hin
    rcases cfg with ⟨ci, co⟩
    simp only at hin
    subst hin
    rcases co with _ | oc <;> simp [Console.new, Console.initComponents, Console.toggle]
  · intro s ti enable hin
    rcases s with ⟨ci, co, en⟩
    simp only at hin
    subst hin
    simp [Console.toggle]

/-- Witness for C10 at a concrete input: a console built without an input
section errors on toggle; one with an input component toggles to enabled
`true`. -/
theorem C10_toggle_without_input_attribute_error_witness :
    (Console.toggle (Console.new ⟨none, none⟩ "hi".data none) none).2
        = .error "AttributeError".data
    ∧ (Console.toggle (⟨some (TextInput.new ⟨10, 1000, []⟩), none, false⟩ : ConsoleState)
          none).2
        = .ok ((Console.toggle
            (⟨some (TextInput.new ⟨10, 1000, []⟩), none, false⟩ : ConsoleState) none).1.enabled) :=
  ⟨C10_toggle_without_input_attribute_error.1 ⟨none, none⟩ "hi".data none none rfl,
   C10_toggle_without_input_attribute_error.2
     ⟨some (TextInput.new ⟨10, 1000, []⟩), none, false⟩ (TextInput.new ⟨10, 1000, []⟩) none rfl⟩

end PgConsole
